import Mathlib

/-!
# Verification of the Misión AMVISION 10K backend

Shallow embedding of `src/main.py` and `src/schemas.py`.

Modelling conventions:
* MongoDB collections are Lean lists; document ids are `Nat`.
* Python `float` is modelled as `Rat` (exact arithmetic on the additive
  fragment the program uses).
* `$addToSet` is insert-if-absent at the end of the list; `$set`/`$inc`
  are functional record updates.
* Python's `x or d` on strings/numbers (falsy on `None`, `""`, `0`) is
  embedded explicitly (`pyOrStr`, `pyOrRat`).
* `list(set(...))` on the completed-milestones list is modelled as
  append-if-absent: every claim below depends only on membership.
-/

/-- `schemas.Player`: one document of the `player` collection. -/
structure Player where
  name : String
  email : String
  av_coins : Nat
  revenue_usd : Rat
  completed_milestones : List String
  unlocked_worlds : List String
deriving Repr, DecidableEq

/-- A raw document of the `milestone` collection: `order` may be absent
(`list_milestones` uses `x.get("order", 999)`). -/
structure MilestoneDoc where
  milestone_id : String
  title : String
  description : Option String
  order : Option Nat
deriving Repr, DecidableEq

/-- `schemas.Reward`: a document of the `reward` collection as created by
`complete_milestone` (there `milestone_id` is always present). -/
structure Reward where
  player_id : Nat
  milestone_id : String
  reason : String
  coins : Nat
deriving Repr, DecidableEq

/-- Request body of `POST /api/complete` (`CompleteMilestoneRequest`). -/
structure CompleteMilestoneRequest where
  player_email : String
  milestone_id : String
  speed : Option String
  revenue_increase : Option Rat
deriving Repr, DecidableEq

/-- Response body of `POST /api/complete` (`CompleteMilestoneResponse`). -/
structure CompleteMilestoneResponse where
  av_coins_awarded : Nat
  revenue_usd : Rat
  unlocked_world : Option String
  message : String
deriving Repr, DecidableEq

/-- Python `s or d` for an optional string (`None` and `""` are falsy). -/
def pyOrStr (x : Option String) (d : String) : String :=
  match x with
  | none => d
  | some s => if s = "" then d else s

/-- Python `v or 0` for an optional number (`None` and `0` are falsy,
and `0 or 0 = 0`). -/
def pyOrRat (x : Option Rat) : Rat :=
  match x with
  | none => 0
  | some v => v

/-- `{"fast": 50, "normal": 30, "slow": 15}.get(speed, 30)`
(main.py line 139). -/
def speedRewardGet (speed : String) : Nat :=
  if speed = "fast" then 50
  else if speed = "normal" then 30
  else if speed = "slow" then 15
  else 30

/-- Python `str.lower()`: lower-case the string character by character
(structurally recursive so that the kernel can evaluate it). -/
def pyLower (s : String) : String :=
  ⟨s.data.map Char.toLower⟩

/-- The effective lower-cased speed string:
`(payload.speed or "normal").lower()` (main.py line 138). -/
def effSpeed (speed : Option String) : String :=
  pyLower (pyOrStr speed "normal")

/-- Coins for a first-time completion: `100 + speed_reward`
(main.py line 140). -/
def awardCoins (speed : Option String) : Nat :=
  100 + speedRewardGet (effSpeed speed)

/-- Mongo `$addToSet`: append the element if it is not already present. -/
def addToSet (l : List String) (x : String) : List String :=
  if x ∈ l then l else l ++ [x]

/-- Outcome of one `complete_milestone` call on a found player: the updated
player document, the reward documents created by the call, and the HTTP
response body. -/
structure StepResult where
  player : Player
  newRewards : List Reward
  resp : CompleteMilestoneResponse
deriving Repr, DecidableEq

/-- main.py lines 131-167: the body of `complete_milestone` after the player
has been found, acting on the player document `p` with Mongo id `pid`. -/
def completeMilestoneStep (pid : Nat) (p : Player) (req : CompleteMilestoneRequest) :
    StepResult :=
  -- idempotent: do not double-complete (lines 131-150)
  let dup := req.milestone_id ∈ p.completed_milestones
  let speed := effSpeed req.speed
  let coins : Nat := if dup then 0 else 100 + speedRewardGet speed
  let newRewards : List Reward :=
    if dup then []
    else [{ player_id := pid, milestone_id := req.milestone_id,
            reason := "Completed " ++ req.milestone_id ++ " (" ++ speed ++ ")",
            coins := 100 + speedRewardGet speed }]
  let completed1 : List String :=
    if dup then p.completed_milestones else p.completed_milestones ++ [req.milestone_id]
  let avCoins1 : Nat :=
    if dup then p.av_coins else p.av_coins + (100 + speedRewardGet speed)
  -- revenue update and world unlock (lines 152-160)
  let rev_inc := pyOrRat req.revenue_increase
  let new_revenue := p.revenue_usd + rev_inc
  let doUnlock := new_revenue ≥ 1000 ∧ "world_1" ∉ p.unlocked_worlds
  let unlocked : Option String := if doUnlock then some "world_1" else none
  let unlocked1 : List String :=
    if doUnlock then addToSet p.unlocked_worlds "world_1" else p.unlocked_worlds
  { player := { p with av_coins := avCoins1,
                       completed_milestones := completed1,
                       unlocked_worlds := unlocked1,
                       revenue_usd := new_revenue },
    newRewards := newRewards,
    resp := { av_coins_awarded := coins,
              revenue_usd := new_revenue,
              unlocked_world := unlocked,
              message := "¡Progreso registrado! Sigue avanzando." } }

/-- The whole database: the three collections used by the endpoints, plus
the id that Mongo will assign to the next inserted player document. -/
structure DB where
  milestones : List MilestoneDoc
  players : List (Nat × Player)
  rewards : List Reward
  nextId : Nat
deriving Repr, DecidableEq

/-- `db["player"].find_one({"email": email})` together with its `_id`. -/
def findPlayerByEmail (db : DB) (email : String) : Option (Nat × Player) :=
  db.players.find? (fun q => q.2.email == email)

/-- The fixed milestone catalog of `bootstrap` (main.py lines 63-75). -/
def catalog : List MilestoneDoc :=
  [ ⟨"m1",  "Email y WhatsApp de Bienvenida es Enviado",  none, some 1⟩,
    ⟨"m2",  "Formulario de Onboarding es completado",      none, some 2⟩,
    ⟨"m3",  "Llamada de Onboarding es llamada completada", none, some 3⟩,
    ⟨"m4",  "Status es Producto Ganador",                  none, some 4⟩,
    ⟨"m5",  "Status es Elegido Proveedor",                 none, some 5⟩,
    ⟨"m6",  "Status es Confirmado",                        none, some 6⟩,
    ⟨"m7",  "Tienda, Status es Creada",                    none, some 7⟩,
    ⟨"m8",  "Business Manager Status es Creado",           none, some 8⟩,
    ⟨"m9",  "Primeros ADS Subidos",                        none, some 9⟩,
    ⟨"m10", "🔥 Primera Venta",                            none, some 10⟩,
    ⟨"m11", "😍 $1.000USD Facturación",                    none, some 11⟩ ]

/-- The `for item in catalog` loop of `bootstrap` (main.py lines 77-80):
insert every item whose `milestone_id` is not in `existing`, counting the
inserts.  `existing` is computed once, before the loop. -/
def bootstrapLoop (existing : List String) :
    List MilestoneDoc → List MilestoneDoc × Nat → List MilestoneDoc × Nat
  | [], acc => acc
  | item :: rest, acc =>
    bootstrapLoop existing rest
      (if item.milestone_id ∈ existing then acc else (acc.1 ++ [item], acc.2 + 1))

/-- `POST /api/bootstrap` (main.py lines 55-81), acting on the stored
`milestone` collection; returns the new collection and `milestones_created`. -/
def bootstrap (store : List MilestoneDoc) : List MilestoneDoc × Nat :=
  bootstrapLoop (store.map (·.milestone_id)) catalog (store, 0)

/-- `bootstrap` iterated `n` times on the stored collection. -/
def bootstrapIter : Nat → List MilestoneDoc → List MilestoneDoc
  | 0, store => store
  | n + 1, store => bootstrapIter n (bootstrap store).1

/-- `POST /api/player` (main.py lines 88-98): find-or-create by email,
returning the player id and the updated database. -/
def create_player (db : DB) (name email : String) : Nat × DB :=
  match findPlayerByEmail db email with
  | some q => (q.1, db)
  | none =>
    (db.nextId,
     { db with players := db.players ++ [(db.nextId, ⟨name, email, 0, 0, [], []⟩)],
               nextId := db.nextId + 1 })

/-- The sort key of `list_milestones`: `x.get("order", 999)`
(main.py line 104). -/
def orderKey (m : MilestoneDoc) : Nat :=
  m.order.getD 999

/-- `GET /api/milestones` (main.py lines 100-108): the stored milestone
documents sorted ascending by `orderKey` with Python's stable sort. -/
def list_milestones (db : DB) : List MilestoneDoc :=
  db.milestones.mergeSort (fun a b => orderKey a ≤ orderKey b)

/-- `POST /api/complete` (main.py lines 122-167): look up the player by
email (404 when absent, leaving the database untouched), then apply
`completeMilestoneStep` and persist the outcome. -/
def complete_milestone (db : DB) (req : CompleteMilestoneRequest) :
    Except String CompleteMilestoneResponse × DB :=
  match findPlayerByEmail db req.player_email with
  | none => (.error "Player not found", db)
  | some (pid, p) =>
    let st := completeMilestoneStep pid p req
    (.ok st.resp,
     { db with players := db.players.map (fun q => if q.1 = pid then (pid, st.player) else q),
               rewards := db.rewards ++ st.newRewards })

/-- Response body of `GET /api/player/summary` (main.py lines 176-183). -/
structure PlayerSummary where
  name : String
  email : String
  av_coins : Nat
  revenue_usd : Rat
  completed_milestones : List String
  unlocked_worlds : List String
deriving Repr, DecidableEq

/-- `GET /api/player/summary` (main.py lines 169-183): 404 when no player
has the given email, otherwise a read-only projection of the player. -/
def player_summary (db : DB) (email : String) : Except String PlayerSummary :=
  match findPlayerByEmail db email with
  | none => .error "Player not found"
  | some (_, p) =>
    .ok ⟨p.name, p.email, p.av_coins, p.revenue_usd,
         p.completed_milestones, p.unlocked_worlds⟩

/-! ### Traces of `complete_milestone` calls on one player

The per-player claims quantify over sequences of calls; these helpers run a
list of requests against a single player document (the reward `player_id` is
irrelevant to the claims, so it is fixed to `0`). -/

/-- The player document after a sequence of `complete_milestone` calls. -/
def runPlayer : Player → List CompleteMilestoneRequest → Player
  | p, [] => p
  | p, r :: rs => runPlayer (completeMilestoneStep 0 p r).player rs

/-- Total coins awarded, over a sequence of calls, by the calls whose
`milestone_id` equals `mid`. -/
def totalAwarded (mid : String) : Player → List CompleteMilestoneRequest → Nat
  | _, [] => 0
  | p, r :: rs =>
    (if r.milestone_id = mid then (completeMilestoneStep 0 p r).resp.av_coins_awarded else 0)
      + totalAwarded mid (completeMilestoneStep 0 p r).player rs

/-- Number of calls in a sequence that report `"world_1"` as newly
unlocked. -/
def unlockReports : Player → List CompleteMilestoneRequest → Nat
  | _, [] => 0
  | p, r :: rs =>
    (if (completeMilestoneStep 0 p r).resp.unlocked_world = some "world_1" then 1 else 0)
      + unlockReports (completeMilestoneStep 0 p r).player rs

/-! ### Projection lemmas for one `complete_milestone` step -/

theorem step_player_revenue (pid : Nat) (p : Player) (req : CompleteMilestoneRequest) :
    (completeMilestoneStep pid p req).player.revenue_usd
      = p.revenue_usd + pyOrRat req.revenue_increase := by
  simp [completeMilestoneStep]

theorem step_resp_revenue (pid : Nat) (p : Player) (req : CompleteMilestoneRequest) :
    (completeMilestoneStep pid p req).resp.revenue_usd
      = p.revenue_usd + pyOrRat req.revenue_increase := by
  simp [completeMilestoneStep]

theorem step_player_name (pid : Nat) (p : Player) (req : CompleteMilestoneRequest) :
    (completeMilestoneStep pid p req).player.name = p.name := by
  simp [completeMilestoneStep]

theorem step_player_email (pid : Nat) (p : Player) (req : CompleteMilestoneRequest) :
    (completeMilestoneStep pid p req).player.email = p.email := by
  simp [completeMilestoneStep]

theorem step_coins_dup (pid : Nat) (p : Player) (req : CompleteMilestoneRequest)
    (h : req.milestone_id ∈ p.completed_milestones) :
    (completeMilestoneStep pid p req).resp.av_coins_awarded = 0 := by
  simp [completeMilestoneStep, h]

theorem step_coins_new (pid : Nat) (p : Player) (req : CompleteMilestoneRequest)
    (h : req.milestone_id ∉ p.completed_milestones) :
    (completeMilestoneStep pid p req).resp.av_coins_awarded = awardCoins req.speed := by
  simp [completeMilestoneStep, h, awardCoins]

theorem step_rewards_dup (pid : Nat) (p : Player) (req : CompleteMilestoneRequest)
    (h : req.milestone_id ∈ p.completed_milestones) :
    (completeMilestoneStep pid p req).newRewards = [] := by
  simp [completeMilestoneStep, h]

theorem step_avcoins_dup (pid : Nat) (p : Player) (req : CompleteMilestoneRequest)
    (h : req.milestone_id ∈ p.completed_milestones) :
    (completeMilestoneStep pid p req).player.av_coins = p.av_coins := by
  simp [completeMilestoneStep, h]

theorem step_completed_dup (pid : Nat) (p : Player) (req : CompleteMilestoneRequest)
    (h : req.milestone_id ∈ p.completed_milestones) :
    (completeMilestoneStep pid p req).player.completed_milestones
      = p.completed_milestones := by
  simp [completeMilestoneStep, h]

theorem step_completed_new (pid : Nat) (p : Player) (req : CompleteMilestoneRequest)
    (h : req.milestone_id ∉ p.completed_milestones) :
    (completeMilestoneStep pid p req).player.completed_milestones
      = p.completed_milestones ++ [req.milestone_id] := by
  simp [completeMilestoneStep, h]

theorem step_completed_mem (pid : Nat) (p : Player) (req : CompleteMilestoneRequest)
    (mid : String) (h : mid ∈ p.completed_milestones) :
    mid ∈ (completeMilestoneStep pid p req).player.completed_milestones := by
  by_cases hdup : req.milestone_id ∈ p.completed_milestones
  · rw [step_completed_dup pid p req hdup]; exact h
  · rw [step_completed_new pid p req hdup]; exact List.mem_append_left _ h

theorem step_completed_not_mem (pid : Nat) (p : Player) (req : CompleteMilestoneRequest)
    (mid : String) (h : mid ∉ p.completed_milestones) (hne : req.milestone_id ≠ mid) :
    mid ∉ (completeMilestoneStep pid p req).player.completed_milestones := by
  by_cases hdup : req.milestone_id ∈ p.completed_milestones
  · rw [step_completed_dup pid p req hdup]; exact h
  · rw [step_completed_new pid p req hdup]
    intro hmem
    rcases List.mem_append.mp hmem with h1 | h1
    · exact h h1
    · exact hne (List.mem_singleton.mp h1).symm

theorem step_unlocked_resp (pid : Nat) (p : Player) (req : CompleteMilestoneRequest) :
    (completeMilestoneStep pid p req).resp.unlocked_world
      = if p.revenue_usd + pyOrRat req.revenue_increase ≥ 1000
            ∧ "world_1" ∉ p.unlocked_worlds
        then some "world_1" else none := by
  simp [completeMilestoneStep]

theorem step_unlocked_worlds (pid : Nat) (p : Player) (req : CompleteMilestoneRequest) :
    (completeMilestoneStep pid p req).player.unlocked_worlds
      = if p.revenue_usd + pyOrRat req.revenue_increase ≥ 1000
            ∧ "world_1" ∉ p.unlocked_worlds
        then addToSet p.unlocked_worlds "world_1" else p.unlocked_worlds := by
  simp [completeMilestoneStep]

theorem step_unlocked_mem (pid : Nat) (p : Player) (req : CompleteMilestoneRequest)
    (h : "world_1" ∈ p.unlocked_worlds) :
    "world_1" ∈ (completeMilestoneStep pid p req).player.unlocked_worlds := by
  rw [step_unlocked_worlds]
  split
  · unfold addToSet; split <;> simp [h]
  · exact h

theorem step_unlocked_resp_none (pid : Nat) (p : Player) (req : CompleteMilestoneRequest)
    (h : "world_1" ∈ p.unlocked_worlds) :
    (completeMilestoneStep pid p req).resp.unlocked_world = none := by
  rw [step_unlocked_resp]
  simp [h]

/-! ### Trace lemmas for the coin-award path -/

/-- Once a milestone id is in the completed set, no later call with it
awards any coins. -/
theorem totalAwarded_eq_zero (mid : String) (p : Player)
    (rs : List CompleteMilestoneRequest) (h : mid ∈ p.completed_milestones) :
    totalAwarded mid p rs = 0 := by
  induction rs generalizing p with
  | nil => rfl
  | cons r rs ih =>
    rw [totalAwarded, ih _ (step_completed_mem 0 p r mid h)]
    by_cases hr : r.milestone_id = mid
    · rw [if_pos hr, step_coins_dup 0 p r (by rw [hr]; exact h)]
    · rw [if_neg hr]

/-- Coins awarded for a milestone id over a whole sequence of calls: when
the id starts out not completed, the total is the single award of the
first call that carries the id (0 when no call does). -/
theorem totalAwarded_find (mid : String) (p : Player)
    (rs : List CompleteMilestoneRequest) (h : mid ∉ p.completed_milestones) :
    totalAwarded mid p rs
      = (match rs.find? (fun r => r.milestone_id == mid) with
         | none => 0
         | some r => awardCoins r.speed) := by
  induction rs generalizing p with
  | nil => rfl
  | cons r rs ih =>
    by_cases hr : r.milestone_id = mid
    · have hnm : r.milestone_id ∉ p.completed_milestones := by rw [hr]; exact h
      have hmem : mid ∈ (completeMilestoneStep 0 p r).player.completed_milestones := by
        rw [step_completed_new 0 p r hnm, hr]
        simp
      rw [totalAwarded, if_pos hr, step_coins_new 0 p r hnm,
        List.find?_cons_of_pos _ (by simp [hr]), totalAwarded_eq_zero mid _ rs hmem]
      rfl
    · rw [totalAwarded, if_neg hr, List.find?_cons_of_neg _ (by simp [hr]),
        Nat.zero_add, ih _ (step_completed_not_mem 0 p r mid h hr)]

/-! ### Trace lemmas for the world-unlock path -/

/-- A call that reports `"world_1"` as newly unlocked leaves it in the
player's unlocked set. -/
theorem step_resp_some_mem (pid : Nat) (p : Player) (req : CompleteMilestoneRequest)
    (h : (completeMilestoneStep pid p req).resp.unlocked_world = some "world_1") :
    "world_1" ∈ (completeMilestoneStep pid p req).player.unlocked_worlds := by
  rw [step_unlocked_resp] at h
  rw [step_unlocked_worlds]
  by_cases hc : p.revenue_usd + pyOrRat req.revenue_increase ≥ 1000
      ∧ "world_1" ∉ p.unlocked_worlds
  · rw [if_pos hc]
    unfold addToSet
    rw [if_neg hc.2]
    simp
  · rw [if_neg hc] at h
    simp at h

/-- Once `"world_1"` is unlocked, no later call reports it again. -/
theorem unlockReports_eq_zero (p : Player) (rs : List CompleteMilestoneRequest)
    (h : "world_1" ∈ p.unlocked_worlds) :
    unlockReports p rs = 0 := by
  induction rs generalizing p with
  | nil => rfl
  | cons r rs ih =>
    rw [unlockReports, step_unlocked_resp_none 0 p r h,
      ih _ (step_unlocked_mem 0 p r h)]
    simp

/-- Over any sequence of calls, `"world_1"` is reported as newly unlocked
at most once. -/
theorem unlockReports_le_one (p : Player) (rs : List CompleteMilestoneRequest) :
    unlockReports p rs ≤ 1 := by
  induction rs generalizing p with
  | nil => exact Nat.zero_le 1
  | cons r rs ih =>
    rw [unlockReports]
    by_cases h : (completeMilestoneStep 0 p r).resp.unlocked_world = some "world_1"
    · rw [if_pos h, unlockReports_eq_zero _ rs (step_resp_some_mem 0 p r h)]
    · rw [if_neg h, Nat.zero_add]
      exact ih _

/-- One call keeps the multiplicity of `"world_1"` in the unlocked list at
most 1. -/
theorem step_count_world (pid : Nat) (p : Player) (req : CompleteMilestoneRequest)
    (h : p.unlocked_worlds.count "world_1" ≤ 1) :
    (completeMilestoneStep pid p req).player.unlocked_worlds.count "world_1" ≤ 1 := by
  rw [step_unlocked_worlds]
  by_cases hc : p.revenue_usd + pyOrRat req.revenue_increase ≥ 1000
      ∧ "world_1" ∉ p.unlocked_worlds
  · rw [if_pos hc]
    unfold addToSet
    rw [if_neg hc.2, List.count_append, List.count_eq_zero.mpr hc.2]
    simp
  · rw [if_neg hc]
    exact h

/-- Any sequence of calls keeps the multiplicity of `"world_1"` in the
unlocked list at most 1. -/
theorem runPlayer_count_world (p : Player) (rs : List CompleteMilestoneRequest)
    (h : p.unlocked_worlds.count "world_1" ≤ 1) :
    (runPlayer p rs).unlocked_worlds.count "world_1" ≤ 1 := by
  induction rs generalizing p with
  | nil => exact h
  | cons r rs ih => exact ih _ (step_count_world 0 p r h)

/-! ### Lemmas about the catalog bootstrapper -/

/-- The bootstrap loop appends exactly the items whose ids are missing and
counts them. -/
theorem bootstrapLoop_eq (existing : List String) (items : List MilestoneDoc)
    (st : List MilestoneDoc) (c : Nat) :
    bootstrapLoop existing items (st, c)
      = (st ++ items.filter (fun i => i.milestone_id ∉ existing),
         c + (items.filter (fun i => i.milestone_id ∉ existing)).length) := by
  induction items generalizing st c with
  | nil => simp [bootstrapLoop]
  | cons i is ih =>
    rw [bootstrapLoop]
    by_cases h : i.milestone_id ∈ existing
    · rw [if_pos h, ih]
      simp [List.filter_cons, h]
    · rw [if_neg h, ih]
      simp [List.filter_cons, h]
      omega

theorem bootstrap_eq (store : List MilestoneDoc) :
    bootstrap store
      = (store ++ catalog.filter
            (fun i => i.milestone_id ∉ store.map (·.milestone_id)),
         (catalog.filter
            (fun i => i.milestone_id ∉ store.map (·.milestone_id))).length) := by
  rw [bootstrap, bootstrapLoop_eq]
  simp

/-- After one bootstrap, every catalog id is stored. -/
theorem bootstrap_complete (store : List MilestoneDoc) (i : MilestoneDoc)
    (hi : i ∈ catalog) :
    i.milestone_id ∈ (bootstrap store).1.map (·.milestone_id) := by
  rw [bootstrap_eq, List.map_append, List.mem_append]
  by_cases h : i.milestone_id ∈ store.map (·.milestone_id)
  · exact Or.inl h
  · exact Or.inr (List.mem_map_of_mem _ (List.mem_filter.mpr ⟨hi, by simpa using h⟩))

/-- Bootstrapping an already-bootstrapped store inserts nothing. -/
theorem bootstrap_idem (store : List MilestoneDoc) :
    bootstrap (bootstrap store).1 = ((bootstrap store).1, 0) := by
  have hnil : catalog.filter
      (fun i => i.milestone_id ∉ (bootstrap store).1.map (·.milestone_id)) = [] := by
    rw [List.filter_eq_nil_iff]
    intro i hi
    simpa using bootstrap_complete store i hi
  rw [bootstrap_eq ((bootstrap store).1), hnil]
  simp

theorem bootstrapIter_eq (n : Nat) (store : List MilestoneDoc) (h : 1 ≤ n) :
    bootstrapIter n store = (bootstrap store).1 := by
  induction n generalizing store with
  | zero => omega
  | succ n ih =>
    rw [bootstrapIter]
    by_cases hn : 1 ≤ n
    · rw [ih _ hn, bootstrap_idem]
    · have hz : n = 0 := by omega
      subst hz
      rfl

theorem bootstrap_nodup (store : List MilestoneDoc)
    (h : (store.map (·.milestone_id)).Nodup) :
    ((bootstrap store).1.map (·.milestone_id)).Nodup := by
  rw [bootstrap_eq, List.map_append, List.nodup_append]
  refine ⟨h, ?_, ?_⟩
  · have hsub : List.Sublist
        ((catalog.filter
          (fun i => i.milestone_id ∉ store.map (·.milestone_id))).map (·.milestone_id))
        (catalog.map (·.milestone_id)) :=
      (List.filter_sublist catalog).map _
    exact hsub.nodup (by decide)
  · intro a ha hb
    rcases List.mem_map.mp hb with ⟨i, hi, rfl⟩
    have hni := (List.mem_filter.mp hi).2
    simp only [decide_not, Bool.not_eq_true', decide_eq_false_iff_not] at hni
    exact hni ha

/-- C6: `bootstrap` inserts exactly the catalog entries (11 fixed entries
`m1`..`m11` with orders 1-11) whose milestone ids are not already stored,
returns the count of newly created entries, never touches the existing
entries (they remain an unchanged prefix), is idempotent (N invocations
leave the catalog of a single invocation), and preserves the absence of
duplicate milestone ids. -/
theorem claim_C6 :
    (catalog.length = 11
      ∧ catalog.map (·.milestone_id)
          = ["m1", "m2", "m3", "m4", "m5", "m6", "m7", "m8", "m9", "m10", "m11"]
      ∧ catalog.map (·.order)
          = [some 1, some 2, some 3, some 4, some 5, some 6,
             some 7, some 8, some 9, some 10, some 11])
    ∧ (∀ store : List MilestoneDoc,
        (bootstrap store).1
            = store ++ catalog.filter
                (fun i => i.milestone_id ∉ store.map (·.milestone_id))
          ∧ (bootstrap store).2
            = (catalog.filter
                (fun i => i.milestone_id ∉ store.map (·.milestone_id))).length)
    ∧ (∀ (n : Nat) (store : List MilestoneDoc),
        1 ≤ n → bootstrapIter n store = (bootstrap store).1)
    ∧ (∀ store : List MilestoneDoc,
        (store.map (·.milestone_id)).Nodup →
          ((bootstrap store).1.map (·.milestone_id)).Nodup) := by
  refine ⟨⟨rfl, rfl, rfl⟩, fun store => ?_, bootstrapIter_eq, bootstrap_nodup⟩
  rw [bootstrap_eq store]
  exact ⟨rfl, rfl⟩

/-- Witness for C6: bootstrapping an empty store twice equals doing it
once. -/
theorem claim_C6_witness :
    1 ≤ 2 ∧ bootstrapIter 2 ([] : List MilestoneDoc) = (bootstrap []).1 :=
  ⟨by decide, claim_C6.2.2.1 2 [] (by decide)⟩

/-- C7: `create_player` is find-or-create by email: when a player with the
email exists it returns that player's id and leaves the database
unchanged; otherwise it creates one new record with zero coins, zero
revenue and empty sets and returns its id.  Calling it twice with the same
email returns the same id both times and the second call creates
nothing. -/
theorem claim_C7 :
    (∀ (db : DB) (name email : String) (q : Nat × Player),
        findPlayerByEmail db email = some q →
          create_player db name email = (q.1, db))
    ∧ (∀ (db : DB) (name email : String),
        findPlayerByEmail db email = none →
          create_player db name email
            = (db.nextId,
               { db with
                   players := db.players ++ [(db.nextId, ⟨name, email, 0, 0, [], []⟩)],
                   nextId := db.nextId + 1 }))
    ∧ (∀ (db : DB) (n1 n2 email : String),
        create_player (create_player db n1 email).2 n2 email
          = ((create_player db n1 email).1, (create_player db n1 email).2)) := by
  refine ⟨fun db name email q h => by simp [create_player, h],
    fun db name email h => by simp [create_player, h],
    fun db n1 n2 email => ?_⟩
  cases h : findPlayerByEmail db email with
  | some q => simp [create_player, h]
  | none =>
    have h2 : findPlayerByEmail
        { db with players := db.players ++ [(db.nextId, ⟨n1, email, 0, 0, [], []⟩)],
                  nextId := db.nextId + 1 } email
        = some (db.nextId, ⟨n1, email, 0, 0, [], []⟩) := by
      unfold findPlayerByEmail at h ⊢
      simp only [List.find?_append, h]
      simp [List.find?]
    simp [create_player, h, h2]

/-- Witness for C7: registering the same email twice on an empty database
returns id 0 both times and leaves the database of the first call. -/
theorem claim_C7_witness :
    create_player (create_player ⟨[], [], [], 0⟩ "Ana" "a").2 "Bob" "a"
      = ((create_player ⟨[], [], [], 0⟩ "Ana" "a").1,
         (create_player ⟨[], [], [], 0⟩ "Ana" "a").2) :=
  claim_C7.2.2 ⟨[], [], [], 0⟩ "Ana" "Bob" "a"

/-- C8: `complete_milestone` and `player_summary` fail exactly when no
player record exists for the given email, the only error is "Player not
found", a not-found `complete_milestone` call leaves the database
untouched, and the milestone catalog plays no role in the call (a
milestone id absent from the catalog is processed like any other). -/
theorem claim_C8 :
    (∀ (db : DB) (req : CompleteMilestoneRequest),
        (complete_milestone db req).1.isOk = true
          ↔ (findPlayerByEmail db req.player_email).isSome = true)
    ∧ (∀ (db : DB) (req : CompleteMilestoneRequest),
        findPlayerByEmail db req.player_email = none →
          complete_milestone db req = (.error "Player not found", db))
    ∧ (∀ (db : DB) (req : CompleteMilestoneRequest) (e : String),
        (complete_milestone db req).1 = .error e → e = "Player not found")
    ∧ (∀ (mils mils' : List MilestoneDoc) (pls : List (Nat × Player))
          (rws : List Reward) (nid : Nat) (req : CompleteMilestoneRequest),
        (complete_milestone ⟨mils', pls, rws, nid⟩ req).1
            = (complete_milestone ⟨mils, pls, rws, nid⟩ req).1
          ∧ (complete_milestone ⟨mils', pls, rws, nid⟩ req).2.players
              = (complete_milestone ⟨mils, pls, rws, nid⟩ req).2.players
          ∧ (complete_milestone ⟨mils', pls, rws, nid⟩ req).2.rewards
              = (complete_milestone ⟨mils, pls, rws, nid⟩ req).2.rewards)
    ∧ (∀ (db : DB) (email : String),
        (player_summary db email).isOk = true
          ↔ (findPlayerByEmail db email).isSome = true)
    ∧ (∀ (db : DB) (email e : String),
        player_summary db email = .error e → e = "Player not found") := by
  refine ⟨fun db req => ?_, fun db req h => by simp [complete_milestone, h],
    fun db req e => ?_, fun mils mils' pls rws nid req => ?_,
    fun db email => ?_, fun db email e => ?_⟩
  · cases h : findPlayerByEmail db req.player_email with
    | none => simp [complete_milestone, h, Except.isOk, Except.toBool]
    | some q => simp [complete_milestone, h, Except.isOk, Except.toBool]
  · cases h : findPlayerByEmail db req.player_email with
    | none =>
      simp only [complete_milestone, h]
      intro he
      exact (Except.error.inj he).symm
    | some q => simp [complete_milestone, h]
  · cases h : pls.find? (fun q => q.2.email == req.player_email) with
    | none =>
      constructor
      · simp [complete_milestone, findPlayerByEmail, h]
      constructor
      · simp [complete_milestone, findPlayerByEmail, h]
      · simp [complete_milestone, findPlayerByEmail, h]
    | some q =>
      constructor
      · simp [complete_milestone, findPlayerByEmail, h]
      constructor
      · simp [complete_milestone, findPlayerByEmail, h]
      · simp [complete_milestone, findPlayerByEmail, h]
  · cases h : findPlayerByEmail db email with
    | none => simp [player_summary, h, Except.isOk, Except.toBool]
    | some q => simp [player_summary, h, Except.isOk, Except.toBool]
  · cases h : findPlayerByEmail db email with
    | none =>
      simp only [player_summary, h]
      intro he
      exact (Except.error.inj he).symm
    | some q => simp [player_summary, h]

/-- Witness for C8: on an empty database every completion call fails with
"Player not found" and changes nothing. -/
theorem claim_C8_witness :
    findPlayerByEmail ⟨[], [], [], 0⟩ "a" = none
    ∧ complete_milestone ⟨[], [], [], 0⟩ ⟨"a", "zz", none, none⟩
        = (.error "Player not found", ⟨[], [], [], 0⟩) :=
  ⟨rfl, claim_C8.2.1 ⟨[], [], [], 0⟩ ⟨"a", "zz", none, none⟩ rfl⟩

/-- The award amounts exactly as the spec states them: `100` base plus a
speed bonus looked up case-insensitively, `"fast"` giving `50`, `"normal"`
giving `30`, `"slow"` giving `15`, with any other or absent value
defaulting to `30` — i.e. awards `150`, `130`, `115`, `130`.  (Spec-side
counterpart of the code's `awardCoins`, for the refinement claim C2.) -/
def awardSpecTable (speed : Option String) : Nat :=
  match speed with
  | none => 130
  | some s =>
    if pyLower s = "fast" then 150
    else if pyLower s = "normal" then 130
    else if pyLower s = "slow" then 115
    else 130

theorem awardCoins_eq_awardSpecTable (speed : Option String) :
    awardCoins speed = awardSpecTable speed := by
  cases speed with
  | none => decide
  | some s =>
    by_cases hs : s = ""
    · subst hs; decide
    · simp only [awardCoins, awardSpecTable, effSpeed, pyOrStr, if_neg hs]
      by_cases h1 : pyLower s = "fast"
      · simp [speedRewardGet, h1]
      · by_cases h2 : pyLower s = "normal"
        · simp [speedRewardGet, h1, h2]
        · by_cases h3 : pyLower s = "slow"
          · simp [speedRewardGet, h1, h2, h3]
          · simp [speedRewardGet, h1, h2, h3]

/-! ### Claims -/

/-- C1: across any sequence of calls for one player, coins for a given
milestone id are awarded exactly once in total: the first call for which
the id is not yet completed awards the full amount and adds the id to the
completed set; every call with an already-completed id awards 0 coins and
creates no reward record; the total over a sequence equals the single
award of the first call carrying the id (0 if none does). -/
theorem claim_C1 :
    (∀ (pid : Nat) (p : Player) (r : CompleteMilestoneRequest),
        r.milestone_id ∉ p.completed_milestones →
          (completeMilestoneStep pid p r).resp.av_coins_awarded = awardCoins r.speed
          ∧ r.milestone_id ∈ (completeMilestoneStep pid p r).player.completed_milestones)
    ∧ (∀ (pid : Nat) (p : Player) (r : CompleteMilestoneRequest),
        r.milestone_id ∈ p.completed_milestones →
          (completeMilestoneStep pid p r).resp.av_coins_awarded = 0
          ∧ (completeMilestoneStep pid p r).newRewards = [])
    ∧ (∀ (mid : String) (p : Player) (rs : List CompleteMilestoneRequest),
        mid ∉ p.completed_milestones →
          totalAwarded mid p rs
            = (match rs.find? (fun r => r.milestone_id == mid) with
               | none => 0
               | some r => awardCoins r.speed))
    ∧ (∀ (mid : String) (p : Player) (rs : List CompleteMilestoneRequest),
        mid ∈ p.completed_milestones → totalAwarded mid p rs = 0) := by
  refine ⟨fun pid p r h => ⟨step_coins_new pid p r h, ?_⟩,
    fun pid p r h => ⟨step_coins_dup pid p r h, step_rewards_dup pid p r h⟩,
    fun mid p rs h => totalAwarded_find mid p rs h,
    fun mid p rs h => totalAwarded_eq_zero mid p rs h⟩
  rw [step_completed_new pid p r h]
  simp

/-- Witness for C1: a fresh player and two calls with the same milestone
id; the total awarded over the trace is the first call's award. -/
theorem claim_C1_witness :
    "m1" ∉ (Player.mk "Ana" "a" 0 0 [] []).completed_milestones
    ∧ totalAwarded "m1" ⟨"Ana", "a", 0, 0, [], []⟩
        [⟨"a", "m1", some "fast", none⟩, ⟨"a", "m1", some "slow", none⟩]
      = (match ([⟨"a", "m1", some "fast", none⟩, ⟨"a", "m1", some "slow", none⟩]
            : List CompleteMilestoneRequest).find?
              (fun r => r.milestone_id == "m1") with
         | none => 0
         | some r => awardCoins r.speed) :=
  ⟨by decide, claim_C1.2.2.1 "m1" ⟨"Ana", "a", 0, 0, [], []⟩
      [⟨"a", "m1", some "fast", none⟩, ⟨"a", "m1", some "slow", none⟩] (by decide)⟩

/-- C2: on every first-time (non-duplicate) completion, the coins awarded
are 100 plus a speed bonus determined case-insensitively from the speed
input: "fast" gives 50, "normal" 30, "slow" 15, any other or absent value
defaults to 30 — so the award is 150, 130, 115 or 130 respectively. -/
theorem claim_C2 :
    ∀ (pid : Nat) (p : Player) (req : CompleteMilestoneRequest),
      req.milestone_id ∉ p.completed_milestones →
        (completeMilestoneStep pid p req).resp.av_coins_awarded
          = awardSpecTable req.speed := by
  intro pid p req h
  rw [step_coins_new pid p req h, awardCoins_eq_awardSpecTable]

/-- Witness for C2 at a concrete first-time completion with speed "FAST". -/
theorem claim_C2_witness :
    "m1" ∉ (Player.mk "Ana" "a" 0 0 [] []).completed_milestones
    ∧ (completeMilestoneStep 0 ⟨"Ana", "a", 0, 0, [], []⟩
          ⟨"a", "m1", some "FAST", none⟩).resp.av_coins_awarded
        = awardSpecTable (some "FAST") :=
  ⟨by decide, claim_C2 0 ⟨"Ana", "a", 0, 0, [], []⟩ ⟨"a", "m1", some "FAST", none⟩ (by decide)⟩

/-- C3: on every call on an existing player, duplicate or not, the revenue
path executes: the new revenue equals the player's current revenue plus
`revenue_increase` (0 when absent), it is persisted to the player record,
and the returned revenue equals it. -/
theorem claim_C3 :
    (∀ (pid : Nat) (p : Player) (req : CompleteMilestoneRequest),
        (completeMilestoneStep pid p req).player.revenue_usd
            = p.revenue_usd + pyOrRat req.revenue_increase
        ∧ (completeMilestoneStep pid p req).resp.revenue_usd
            = p.revenue_usd + pyOrRat req.revenue_increase)
    ∧ pyOrRat none = 0
    ∧ (∀ (db : DB) (req : CompleteMilestoneRequest) (pid : Nat) (p : Player),
        findPlayerByEmail db req.player_email = some (pid, p) →
          (complete_milestone db req).1
              = .ok (completeMilestoneStep pid p req).resp
          ∧ (pid, (completeMilestoneStep pid p req).player)
              ∈ (complete_milestone db req).2.players) := by
  refine ⟨fun pid p req => ⟨step_player_revenue pid p req, step_resp_revenue pid p req⟩,
    rfl, fun db req pid p h => ?_⟩
  constructor
  · simp only [complete_milestone, h]
  · simp only [complete_milestone, h]
    have hmem : (pid, p) ∈ db.players := List.mem_of_find?_eq_some h
    have := List.mem_map_of_mem
      (fun q : Nat × Player =>
        if q.1 = pid then (pid, (completeMilestoneStep pid p req).player) else q) hmem
    simpa using this

/-- Witness for C3: a database with one player, a duplicate-free call. -/
theorem claim_C3_witness :
    findPlayerByEmail ⟨[], [(0, ⟨"Ana", "a", 0, 7, [], []⟩)], [], 1⟩ "a"
        = some (0, ⟨"Ana", "a", 0, 7, [], []⟩)
    ∧ ((complete_milestone ⟨[], [(0, ⟨"Ana", "a", 0, 7, [], []⟩)], [], 1⟩
            ⟨"a", "m1", none, some 5⟩).1
          = .ok (completeMilestoneStep 0 ⟨"Ana", "a", 0, 7, [], []⟩
              ⟨"a", "m1", none, some 5⟩).resp
        ∧ (0, (completeMilestoneStep 0 ⟨"Ana", "a", 0, 7, [], []⟩
              ⟨"a", "m1", none, some 5⟩).player)
            ∈ (complete_milestone ⟨[], [(0, ⟨"Ana", "a", 0, 7, [], []⟩)], [], 1⟩
                ⟨"a", "m1", none, some 5⟩).2.players) :=
  ⟨rfl, claim_C3.2.2 ⟨[], [(0, ⟨"Ana", "a", 0, 7, [], []⟩)], [], 1⟩
      ⟨"a", "m1", none, some 5⟩ 0 ⟨"Ana", "a", 0, 7, [], []⟩ rfl⟩

/-- C4: a call reports `unlocked_world = "world_1"` iff the new revenue is
at least 1000 and `"world_1"` was not already unlocked, in which case it
is added to the unlocked set; otherwise it reports none (no other world is
ever reported).  Consequently `"world_1"` is reported at most once across
any sequence of calls and appears in the unlocked list at most once. -/
theorem claim_C4 :
    (∀ (pid : Nat) (p : Player) (r : CompleteMilestoneRequest),
        ((completeMilestoneStep pid p r).resp.unlocked_world = some "world_1"
          ↔ p.revenue_usd + pyOrRat r.revenue_increase ≥ 1000
              ∧ "world_1" ∉ p.unlocked_worlds)
        ∧ ((completeMilestoneStep pid p r).resp.unlocked_world = some "world_1"
            → "world_1" ∈ (completeMilestoneStep pid p r).player.unlocked_worlds)
        ∧ ((completeMilestoneStep pid p r).resp.unlocked_world = some "world_1"
            ∨ (completeMilestoneStep pid p r).resp.unlocked_world = none))
    ∧ (∀ (p : Player) (rs : List CompleteMilestoneRequest), unlockReports p rs ≤ 1)
    ∧ (∀ (p : Player) (rs : List CompleteMilestoneRequest),
        p.unlocked_worlds.count "world_1" ≤ 1 →
          (runPlayer p rs).unlocked_worlds.count "world_1" ≤ 1) := by
  refine ⟨fun pid p r => ⟨?_, step_resp_some_mem pid p r, ?_⟩,
    unlockReports_le_one, runPlayer_count_world⟩
  · rw [step_unlocked_resp]
    by_cases hc : p.revenue_usd + pyOrRat r.revenue_increase ≥ 1000
        ∧ "world_1" ∉ p.unlocked_worlds
    · simp [hc]
    · simp [hc]
  · rw [step_unlocked_resp]
    by_cases hc : p.revenue_usd + pyOrRat r.revenue_increase ≥ 1000
        ∧ "world_1" ∉ p.unlocked_worlds
    · left; rw [if_pos hc]
    · right; rw [if_neg hc]

/-- Witness for C4: a fresh player, one call crossing the threshold. -/
theorem claim_C4_witness :
    (Player.mk "Ana" "a" 0 0 [] []).unlocked_worlds.count "world_1" ≤ 1
    ∧ (runPlayer ⟨"Ana", "a", 0, 0, [], []⟩
        [⟨"a", "m1", none, some 1500⟩]).unlocked_worlds.count "world_1" ≤ 1 :=
  ⟨by decide, claim_C4.2.2 ⟨"Ana", "a", 0, 0, [], []⟩
      [⟨"a", "m1", none, some 1500⟩] (by decide)⟩

/-- C5, counterexample: a call with a negative `revenue_increase` strictly
decreases the player's revenue, so revenue is not monotonically
non-decreasing as the claim states. -/
theorem claim_C5_counterexample :
    (completeMilestoneStep 0 ⟨"Ana", "a", 0, 100, [], []⟩
        ⟨"a", "m1", none, some (-50)⟩).player.revenue_usd
      < (Player.mk "Ana" "a" 0 100 [] []).revenue_usd := by
  rw [step_player_revenue]
  norm_num [pyOrRat]

/-- C5 (amended): the player's revenue after a `complete_milestone` call is
greater than or equal to the revenue before it, provided the effective
`revenue_increase` is nonnegative (absent is treated as 0); a negative
`revenue_increase` passes through unvalidated and decreases revenue. -/
theorem claim_C5 :
    ∀ (pid : Nat) (p : Player) (req : CompleteMilestoneRequest),
      0 ≤ pyOrRat req.revenue_increase →
        p.revenue_usd ≤ (completeMilestoneStep pid p req).player.revenue_usd := by
  intro pid p req h
  rw [step_player_revenue]
  linarith

/-- Witness for the amended C5 with `revenue_increase = 5`. -/
theorem claim_C5_witness :
    (0 : Rat) ≤ pyOrRat (some 5)
    ∧ (Player.mk "Ana" "a" 0 7 [] []).revenue_usd
        ≤ (completeMilestoneStep 0 ⟨"Ana", "a", 0, 7, [], []⟩
            ⟨"a", "m1", none, some 5⟩).player.revenue_usd :=
  ⟨by norm_num [pyOrRat],
   claim_C5 0 ⟨"Ana", "a", 0, 7, [], []⟩ ⟨"a", "m1", none, some 5⟩ (by norm_num [pyOrRat])⟩

/-- C10: a call whose milestone id is already completed awards 0 coins,
leaves the coin balance, the completed set, the name and the email exactly
unchanged and creates no reward record: only revenue and the
unlocked-world set may change. -/
theorem claim_C10 :
    ∀ (pid : Nat) (p : Player) (req : CompleteMilestoneRequest),
      req.milestone_id ∈ p.completed_milestones →
        (completeMilestoneStep pid p req).resp.av_coins_awarded = 0
        ∧ (completeMilestoneStep pid p req).player.av_coins = p.av_coins
        ∧ (completeMilestoneStep pid p req).player.completed_milestones
            = p.completed_milestones
        ∧ (completeMilestoneStep pid p req).newRewards = []
        ∧ (completeMilestoneStep pid p req).player.name = p.name
        ∧ (completeMilestoneStep pid p req).player.email = p.email := by
  intro pid p req h
  exact ⟨step_coins_dup pid p req h, step_avcoins_dup pid p req h,
    step_completed_dup pid p req h, step_rewards_dup pid p req h,
    step_player_name pid p req, step_player_email pid p req⟩

/-- Witness for C10 at a concrete duplicate call. -/
theorem claim_C10_witness :
    "m1" ∈ (Player.mk "Ana" "a" 130 7 ["m1"] []).completed_milestones
    ∧ ((completeMilestoneStep 0 ⟨"Ana", "a", 130, 7, ["m1"], []⟩
          ⟨"a", "m1", some "fast", some 5⟩).resp.av_coins_awarded = 0
      ∧ (completeMilestoneStep 0 ⟨"Ana", "a", 130, 7, ["m1"], []⟩
          ⟨"a", "m1", some "fast", some 5⟩).player.av_coins
          = (Player.mk "Ana" "a" 130 7 ["m1"] []).av_coins
      ∧ (completeMilestoneStep 0 ⟨"Ana", "a", 130, 7, ["m1"], []⟩
          ⟨"a", "m1", some "fast", some 5⟩).player.completed_milestones
          = (Player.mk "Ana" "a" 130 7 ["m1"] []).completed_milestones
      ∧ (completeMilestoneStep 0 ⟨"Ana", "a", 130, 7, ["m1"], []⟩
          ⟨"a", "m1", some "fast", some 5⟩).newRewards = []
      ∧ (completeMilestoneStep 0 ⟨"Ana", "a", 130, 7, ["m1"], []⟩
          ⟨"a", "m1", some "fast", some 5⟩).player.name
          = (Player.mk "Ana" "a" 130 7 ["m1"] []).name
      ∧ (completeMilestoneStep 0 ⟨"Ana", "a", 130, 7, ["m1"], []⟩
          ⟨"a", "m1", some "fast", some 5⟩).player.email
          = (Player.mk "Ana" "a" 130 7 ["m1"] []).email) :=
  ⟨by decide, claim_C10 0 ⟨"Ana", "a", 130, 7, ["m1"], []⟩
      ⟨"a", "m1", some "fast", some 5⟩ (by decide)⟩



/-! ### Lemmas for the milestone listing -/

theorem orderKeyLE_trans (a b c : MilestoneDoc) :
    (orderKey a ≤ orderKey b : Bool) → (orderKey b ≤ orderKey c : Bool) →
      (orderKey a ≤ orderKey c : Bool) := by
  simp only [decide_eq_true_eq]
  omega

theorem orderKeyLE_total (a b : MilestoneDoc) :
    ((orderKey a ≤ orderKey b : Bool) || (orderKey b ≤ orderKey a : Bool)) = true := by
  simp only [Bool.or_eq_true, decide_eq_true_eq]
  omega

/-- C9: `list_milestones` returns exactly the stored milestone documents
(a permutation of the collection), sorted ascending by their `order` field
with a missing `order` treated as the sentinel 999, and the sort is
stable: any correctly ordered pair of the input — ties in particular —
stays in its original relative order. -/
theorem claim_C9 :
    (∀ db : DB,
        List.Pairwise (fun a b => orderKey a ≤ orderKey b) (list_milestones db))
    ∧ (∀ db : DB, (list_milestones db).Perm db.milestones)
    ∧ (∀ m : MilestoneDoc, m.order = none → orderKey m = 999)
    ∧ (∀ (db : DB) (a b : MilestoneDoc),
        orderKey a ≤ orderKey b → List.Sublist [a, b] db.milestones →
          List.Sublist [a, b] (list_milestones db)) := by
  refine ⟨fun db => ?_, fun db => List.mergeSort_perm db.milestones _,
    fun m hm => by simp [orderKey, hm], fun db a b hab hsub => ?_⟩
  · have hs := List.sorted_mergeSort orderKeyLE_trans orderKeyLE_total db.milestones
    exact hs.imp (fun h => by simpa using h)
  · exact List.pair_sublist_mergeSort orderKeyLE_trans orderKeyLE_total
      (by simpa using hab) hsub

/-- Witness for C9: two tie-key documents (both lacking `order`) keep
their relative order under `list_milestones`. -/
theorem claim_C9_witness :
    orderKey ⟨"a", "ta", none, none⟩ ≤ orderKey ⟨"b", "tb", none, none⟩
    ∧ List.Sublist [⟨"a", "ta", none, none⟩, ⟨"b", "tb", none, none⟩]
        (DB.mk [⟨"a", "ta", none, none⟩, ⟨"b", "tb", none, none⟩] [] [] 0).milestones
    ∧ List.Sublist [⟨"a", "ta", none, none⟩, ⟨"b", "tb", none, none⟩]
        (list_milestones ⟨[⟨"a", "ta", none, none⟩, ⟨"b", "tb", none, none⟩], [], [], 0⟩) :=
  ⟨by decide, List.Sublist.refl _,
   claim_C9.2.2.2 ⟨[⟨"a", "ta", none, none⟩, ⟨"b", "tb", none, none⟩], [], [], 0⟩
     ⟨"a", "ta", none, none⟩ ⟨"b", "tb", none, none⟩ (by decide) (List.Sublist.refl _)⟩
